import Mathlib

/-!
Shallow embedding of the live sensor dashboard repository (two variants:
`web_dashboard_1.py`, a single-page app, and `web_dashboard_2.py`, a
multi-page app).  The embedded core covers: the fixed-capacity ring
buffers (`collections.deque(maxlen=MAX_BUFFER_SIZE)`), the synthetic
signal generator `generate_new_data`, the windowing / slicing logic, the
paused-only zoom/pan overlay, the dashboard graph-update callbacks of
both variants, the detail-page live-update callback of variant 2, and
the CSV export assembler.  Python floats are modelled as rationals,
timestamps as an opaque integer type, Plotly relayout payloads as
association lists from key strings to values, and Python dict `.get`
with `Option` fields.  A Python callback that can raise an uncaught
exception is modelled as returning `Option` (with `none` for the
exception); the global buffer state read and written by a callback is
threaded explicitly.
-/

/-- Timestamps (`datetime.now()` values) are opaque to the core logic; the
code only appends, slices and re-emits them, so we model them as integers. -/
abbrev Time := Int

/-- `MAX_BUFFER_SIZE = 10000` in both variants. -/
def MAX_BUFFER_SIZE : Nat := 10000

/-- `DEFAULT_DISPLAY_POINTS = 50` (variant 1). -/
def DEFAULT_DISPLAY_POINTS : Int := 50

/-- `DEFAULT_DISPLAY_POINTS_DASH = 100` (variant 2). -/
def DEFAULT_DISPLAY_POINTS_DASH : Int := 100

/-- `DEFAULT_DISPLAY_POINTS_DETAIL = 500` (variant 2). -/
def DEFAULT_DISPLAY_POINTS_DETAIL : Int := 500

/-- One `append` on a `collections.deque` with `maxlen = C`: when the deque
is at capacity the oldest (leftmost) entry is discarded before the new entry
is appended on the right. -/
def dequeAppendC (C : Nat) (buf : List α) (x : α) : List α :=
  if C ≤ buf.length then buf.tail ++ [x] else buf ++ [x]

/-- `deque.append` at the capacity `MAX_BUFFER_SIZE` used by every buffer in
both variants. -/
def dequeAppend (buf : List α) (x : α) : List α :=
  dequeAppendC MAX_BUFFER_SIZE buf x

/-- A deque built from empty by a sequence of appends. -/
def appendAll (C : Nat) (xs : List α) : List α :=
  xs.foldl (fun buf x => dequeAppendC C buf x) []

/-- Server-side buffer state: the shared `time_data` deque plus the
`sensor_data` dict of the four channel deques (channel `s1` is index `0`,
up to channel `s4` at index `3`).  Both variants declare the same shape. -/
structure Buffers where
  time_data : List Time
  sensor_data : Fin 4 → List ℚ

/-- Buffers at process start: all deques empty. -/
def initialBuffers : Buffers :=
  { time_data := [], sensor_data := fun _ => [] }

/-- Clamp `max(0, min(120, new_val))` applied to every generated value. -/
def clampSensor (x : ℚ) : ℚ := max 0 (min 120 x)

/-- One step of the bounded random walk:
`last_val + u - (last_val - 50) * 0.1`, clamped to `[0, 120]`, where `u`
stands for the `random.uniform(-2.5, 2.5)` draw. -/
def nextValue (last_val u : ℚ) : ℚ :=
  clampSensor (last_val + u - (last_val - 50) * (1 / 10))

/-- `buffer[-1] if buffer else 50.0`. -/
def lastOrDefault (buf : List ℚ) : ℚ :=
  match buf.getLast? with
  | some v => v
  | none => 50

/-- `generate_new_data` (identical in both variants): append the current
time to `time_data` and, for each channel, append the next random-walk
value.  `now` is the `get_current_time()` result and `u c` the uniform
draw consumed for channel `c`. -/
def generate_new_data (st : Buffers) (now : Time) (u : Fin 4 → ℚ) : Buffers :=
  { time_data := dequeAppend st.time_data now,
    sensor_data := fun c =>
      dequeAppend (st.sensor_data c)
        (nextValue (lastOrDefault (st.sensor_data c)) (u c)) }

/-- One data trace of a Plotly figure as the core constructs it: the x and y
data of the window slice, the mode string, the marker size (present exactly
when markers are shown, modelling the `marker_dict`), and the line shape. -/
structure Trace where
  x : List Time
  y : List ℚ
  mode : String
  marker_size : Option ℚ
  line_shape : String
  deriving DecidableEq

/-- The parts of a Plotly figure the core determines: title, the trace list
(empty or a singleton), and the optional explicit axis-range overrides set
by the paused zoom/pan overlay. -/
structure Figure where
  title : String
  traces : List Trace
  xaxis_range : Option (ℚ × ℚ)
  yaxis_range : Option (ℚ × ℚ)
  deriving DecidableEq

/-- `create_base_figure`: an empty chart shell with no trace and no
axis-range override. -/
def create_base_figure (title : String) : Figure :=
  { title := title, traces := [], xaxis_range := none, yaxis_range := none }

/-- A captured `relayoutData` payload: a dict snapshot from Plotly, modelled
as an association list from key strings (such as `"xaxis.range[0]"`) to
range values. -/
abbrev Relayout := List (String × ℚ)

/-- Membership test `key in relayout_data` on the payload dict. -/
def hasKey (rd : Relayout) (k : String) : Bool :=
  (rd.lookup k).isSome

/-- `islice(buf, start, stop)`: the elements with indices in `[start, stop)`. -/
def islice (xs : List α) (start stop : Nat) : List α :=
  (xs.take stop).drop start

/-- The window extractor: from the buffered length and the requested display
point count, the exposed index range `(start_index, num_points)` with
`start_index = max(0, num_points - display_points)` as computed inline by
every graph callback. -/
def window (num_points display_points : Int) : Int × Int :=
  (max 0 (num_points - display_points), num_points)

/-- The slice a graph callback takes from a buffer: `islice(buf,
start_index, num_points)` where the index range comes from `window` and
`num_points` is the length of `time_data` (also for the channel buffers). -/
def window_slice (buf : List α) (num_points : Nat) (display_points : Int) : List α :=
  islice buf (window (num_points : Int) display_points).1.toNat num_points

/-- Trace construction shared by the three graph callbacks, including the
`if x_slice:` guard: an empty window yields the bare chart shell, otherwise
one scatter trace is added. -/
def assemble_figure (title : String) (x_slice : List Time) (y_slice : List ℚ)
    (mode : String) (marker_size : Option ℚ) (line_shape : String) : Figure :=
  let fig := create_base_figure title
  if x_slice.isEmpty then fig
  else { fig with traces := [{ x := x_slice, y := y_slice, mode := mode,
                               marker_size := marker_size, line_shape := line_shape }] }

/-- The variant-1 settings store dict (`display_points`, `line_shape`,
`show_markers`, `marker_size`); every field is read with `.get`, so each is
an `Option`. -/
structure Settings1 where
  display_points : Option Int
  line_shape : Option String
  show_markers : Option String
  marker_size : Option ℚ
  deriving DecidableEq

/-- The variant-2 settings store dict (`points`, `shape`, `markers`,
`size`), used by both the dashboard and the detail pages. -/
structure Settings2 where
  points : Option Int
  shape : Option String
  markers : Option String
  size : Option ℚ
  deriving DecidableEq

/-- The per-sensor figure assembled by variant 1 `update_graphs` before the
zoom/pan overlay: settings defaults, window slice and trace styling hoisted
from the callback body. -/
def dashAssembledFig1 (st1 : Buffers) (settings : Settings1) (i : Fin 4) : Figure :=
  let display_points := settings.display_points.getD DEFAULT_DISPLAY_POINTS
  let line_shape := settings.line_shape.getD "linear"
  let show_markers := settings.show_markers == some "on"
  let marker_size := settings.marker_size.getD 6
  let x_slice := window_slice st1.time_data st1.time_data.length display_points
  let y_slice := window_slice (st1.sensor_data i) st1.time_data.length display_points
  let mode := if show_markers then "lines+markers" else "lines"
  let msize := if show_markers then some marker_size else none
  assemble_figure ("Sensor " ++ toString (i.val + 1)) x_slice y_slice mode msize line_shape

/-- The per-sensor figure assembled by variant 2 `update_dashboard_graphs`
before the zoom/pan overlay (defaults `100` points, `linear`, markers off,
size `6`). -/
def dashAssembledFig2 (st1 : Buffers) (settings : Settings2) (i : Fin 4) : Figure :=
  let points := settings.points.getD DEFAULT_DISPLAY_POINTS_DASH
  let shape := settings.shape.getD "linear"
  let show_markers := settings.markers == some "on"
  let size := settings.size.getD 6
  let x_slice := window_slice st1.time_data st1.time_data.length points
  let y_slice := window_slice (st1.sensor_data i) st1.time_data.length points
  let mode := if show_markers then "lines+markers" else "lines"
  let msize := if show_markers then some size else none
  assemble_figure ("Sensor " ++ toString (i.val + 1)) x_slice y_slice mode msize shape

/-- The variant-1 zoom/pan overlay (the `FIX 2` block of `update_graphs`):
skipped while running or for a falsy payload; each axis pair is guarded by
its own two `in` checks before the dict is indexed, so a `none` result
(a `KeyError`) is unreachable. -/
def applyRelayout1 (is_running : Bool) (rd : Option Relayout) (fig : Figure) :
    Option Figure :=
  match rd with
  | none => some fig
  | some r =>
    if is_running || r.isEmpty then some fig
    else
      let step1 : Option Figure :=
        if hasKey r "xaxis.range[0]" && hasKey r "xaxis.range[1]" then
          match r.lookup "xaxis.range[0]", r.lookup "xaxis.range[1]" with
          | some a, some b => some { fig with xaxis_range := some (a, b) }
          | _, _ => none
        else some fig
      match step1 with
      | none => none
      | some fig1 =>
        if hasKey r "yaxis.range[0]" && hasKey r "yaxis.range[1]" then
          match r.lookup "yaxis.range[0]", r.lookup "yaxis.range[1]" with
          | some a, some b => some { fig1 with yaxis_range := some (a, b) }
          | _, _ => none
        else some fig1

/-- The variant-2 zoom/pan overlay block of `update_dashboard_graphs`: a
single guard testing membership of both range[0] keys at once,
followed by direct indexing of all four keys; `none` models the uncaught
`KeyError` raised when a `range[1]` key is absent while both `range[0]` keys
are present. -/
def applyRelayout2 (is_running : Bool) (rd : Option Relayout) (fig : Figure) :
    Option Figure :=
  match rd with
  | none => some fig
  | some r =>
    if is_running || r.isEmpty then some fig
    else
      if hasKey r "xaxis.range[0]" && hasKey r "yaxis.range[0]" then
        match r.lookup "xaxis.range[0]", r.lookup "xaxis.range[1]",
              r.lookup "yaxis.range[0]", r.lookup "yaxis.range[1]" with
        | some x0, some x1, some y0, some y1 =>
          some { fig with xaxis_range := some (x0, x1), yaxis_range := some (y0, y1) }
        | _, _, _, _ => none
      else some fig

/-- Variant 1 `update_graphs`: conditionally generate data, then build the
four sensor figures from the post-append state and apply the overlay to
each.  The first component is the global buffer state after the callback;
`none` in the second stands for an uncaught exception while building the
figures. -/
def update_graphs (st : Buffers) (now : Time) (u : Fin 4 → ℚ) (is_running : Bool)
    (settings : Settings1) (relayouts : Fin 4 → Option Relayout) :
    Buffers × Option (List Figure) :=
  let st1 := if is_running then generate_new_data st now u else st
  (st1, (List.finRange 4).mapM (fun i =>
    applyRelayout1 is_running (relayouts i) (dashAssembledFig1 st1 settings i)))

/-- Variant 2 `update_dashboard_graphs`: same dataflow as variant 1 but with
the variant-2 settings keys and the joint (non-independent) overlay check. -/
def update_dashboard_graphs (st : Buffers) (now : Time) (u : Fin 4 → ℚ)
    (is_running : Bool) (settings : Settings2) (relayouts : Fin 4 → Option Relayout) :
    Buffers × Option (List Figure) :=
  let st1 := if is_running then generate_new_data st now u else st
  (st1, (List.finRange 4).mapM (fun i =>
    applyRelayout2 is_running (relayouts i) (dashAssembledFig2 st1 settings i)))

/-- Which input fired the detail-page callback: the periodic interval tick,
the detail settings store, or the initial call on page load (where
`dash.ctx.triggered_id` is not the interval id either). -/
inductive DetailTrigger
  | interval
  | settingsStore
  | pageLoad
  deriving DecidableEq

/-- The `extendData` delta instruction emitted by the detail page:
`(dict(x=[[new_time]], y=[[new_value]]), [0], points_to_keep)`. -/
structure ExtendData where
  x : List (List Time)
  y : List (List ℚ)
  trace_indices : List Nat
  max_points : Int
  deriving DecidableEq

/-- Result of the detail-page callback: `(no_update, no_update)` after a
failed pathname parse, a delta instruction `(no_update, extendData)`, or a
full redraw `(figure, no_update)`. -/
inductive DetailOut
  | noUpdatePair
  | delta (e : ExtendData)
  | redraw (fig : Figure)
  deriving DecidableEq

/-- The characters after the last dash, the last dash-separated segment
of the pathname. -/
def afterLastDash (cs : List Char) : List Char :=
  (cs.reverse.takeWhile (fun c => c ≠ '-')).reverse

/-- Digit-string parse used to model Python `int(...)` on an unsigned
numeral (empty or non-digit input raises `ValueError`, hence `none`). -/
def parseDigits (cs : List Char) : Option Nat :=
  if cs.isEmpty then none
  else if cs.all Char.isDigit then
    some (cs.foldl (fun n c => 10 * n + (c.toNat - 48)) 0)
  else none

/-- Python `int(s)` on the last dash-separated segment, with an optional
sign. -/
def parseIntSegment (cs : List Char) : Option Int :=
  match cs with
  | '-' :: rest => (parseDigits rest).map (fun n => -(n : Int))
  | '+' :: rest => (parseDigits rest).map (fun n => (n : Int))
  | _ => (parseDigits cs).map (fun n => (n : Int))

/-- The guarded integer parse of the last dash-separated pathname segment
in the detail callback;
`none` models the caught `ValueError` / `IndexError` / `TypeError`. -/
def parseSensorIndex (pathname : Option String) : Option Int :=
  match pathname with
  | none => none
  | some p => parseIntSegment (afterLastDash p.toList)

/-- The `sensor_data` dict lookup keyed by the parsed index: only `s1`..`s4`
exist; any other index raises an uncaught `KeyError` (hence `none`). -/
def channelOfIndex (i : Int) : Option (Fin 4) :=
  if i = 1 then some 0
  else if i = 2 then some 1
  else if i = 3 then some 2
  else if i = 4 then some 3
  else none

/-- The full-redraw figure of the detail page (defaults `500` points,
`spline`, markers off, size `6`; `create_base_figure` is called with the
default empty title there). -/
def detailRedrawFig (st : Buffers) (settings : Settings2) (c : Fin 4) : Figure :=
  let points := settings.points.getD DEFAULT_DISPLAY_POINTS_DETAIL
  let shape := settings.shape.getD "spline"
  let show_markers := settings.markers == some "on"
  let size := settings.size.getD 6
  let x_slice := window_slice st.time_data st.time_data.length points
  let y_slice := window_slice (st.sensor_data c) st.time_data.length points
  let mode := if show_markers then "lines+markers" else "lines"
  let msize := if show_markers then some size else none
  assemble_figure "" x_slice y_slice mode msize shape

/-- Variant 2 `update_detail_graph_live`.  The callback only reads the
global buffers (it never calls `generate_new_data` nor mutates any deque),
so the returned state is the input state.  The channel dict access, shared
by both branches, is hoisted before the branch; `none` in the second
component models an uncaught exception (`KeyError` for an out-of-range
sensor index, `IndexError` for `[-1]` on an empty channel deque). -/
def update_detail_graph_live (st : Buffers) (trigger : DetailTrigger)
    (settings : Settings2) (pathname : Option String) (is_running : Bool) :
    Buffers × Option DetailOut :=
  (st,
    match parseSensorIndex pathname with
    | none => some DetailOut.noUpdatePair
    | some idx =>
      match channelOfIndex idx with
      | none => none
      | some c =>
        if trigger = DetailTrigger.interval ∧ is_running = true ∧ st.time_data ≠ [] then
          match st.time_data.getLast?, (st.sensor_data c).getLast? with
          | some new_time, some new_value =>
            some (DetailOut.delta
              { x := [[new_time]], y := [[new_value]], trace_indices := [0],
                max_points := settings.points.getD DEFAULT_DISPLAY_POINTS_DETAIL })
          | _, _ => none
        else
          some (DetailOut.redraw (detailRedrawFig st settings c)))

/-- The materialized export table: the CSV header plus one row
`(timestamp, s1, s2, s3, s4)` per buffered sample. -/
structure ExportTable where
  header : List String
  rows : List (Time × ℚ × ℚ × ℚ × ℚ)
  deriving DecidableEq

/-- `export_data_as_csv` (identical in both variants): build the DataFrame
from the `timestamp` column followed by the four channel columns in dict
insertion order.  `pd.DataFrame` raises when the column lists have unequal
lengths, hence `none` in that (unreachable) case; otherwise row `j` holds
the entries at index `j` of every buffer. -/
def export_data_as_csv (st : Buffers) : Option ExportTable :=
  if ∀ c : Fin 4, (st.sensor_data c).length = st.time_data.length then
    some { header := ["timestamp", "s1", "s2", "s3", "s4"],
           rows := (List.range st.time_data.length).map (fun j =>
             (st.time_data.getD j 0,
              (st.sensor_data 0).getD j 0, (st.sensor_data 1).getD j 0,
              (st.sensor_data 2).getD j 0, (st.sensor_data 3).getD j 0)) }
  else none

/-- One firing of the `dcc.Interval` tick as the dashboard callback handles
it: the capture state, the timestamp and the random draws consumed if data
is generated. -/
structure TickInput where
  running : Bool
  now : Time
  u : Fin 4 → ℚ

/-- The buffer mutation a dashboard tick performs: `generate_new_data`
exactly when capture is running. -/
def tickStep (st : Buffers) (e : TickInput) : Buffers :=
  if e.running then generate_new_data st e.now e.u else st

/-- Buffer state after a sequence of ticks from process start. -/
def runTicks (evs : List TickInput) : Buffers :=
  evs.foldl tickStep initialBuffers

/-- Characterization of one independently-guarded axis pair: the range the
variant-1 overlay installs for an axis, `none` when either bound is absent
from the payload. -/
def overlayPair (rd : Option Relayout) (k0 k1 : String) : Option (ℚ × ℚ) :=
  match rd with
  | none => none
  | some r =>
    match r.lookup k0, r.lookup k1 with
    | some a, some b => some (a, b)
    | _, _ => none

/-- Characterization of the variant-2 overlay on a payload that does not
raise: both axis ranges are installed together when all four keys are
present, otherwise the figure is returned unchanged. -/
def overlayResult2 (rd : Option Relayout) (fig : Figure) : Figure :=
  match rd with
  | none => fig
  | some r =>
    match r.lookup "xaxis.range[0]", r.lookup "xaxis.range[1]",
          r.lookup "yaxis.range[0]", r.lookup "yaxis.range[1]" with
    | some x0, some x1, some y0, some y1 =>
      { fig with xaxis_range := some (x0, x1), yaxis_range := some (y0, y1) }
    | _, _, _, _ => fig

/-- A payload is safe for the variant-2 overlay when it cannot trigger the
`KeyError`: whenever both `range[0]` keys are present, both `range[1]` keys
are present as well. -/
def relayoutSafe (rd : Option Relayout) : Bool :=
  match rd with
  | none => true
  | some r =>
    !(hasKey r "xaxis.range[0]" && hasKey r "yaxis.range[0]") ||
      (hasKey r "xaxis.range[1]" && hasKey r "yaxis.range[1]")

/-! ### Ring buffer lemmas -/

/-- Length of one deque append. -/
theorem dequeAppendC_length (C : Nat) (hC : 0 < C) (buf : List α) (x : α) :
    (dequeAppendC C buf x).length =
      if C ≤ buf.length then buf.length else buf.length + 1 := by
  unfold dequeAppendC
  split <;> rename_i h
  · simp only [List.length_append, List.length_tail, List.length_cons,
      List.length_nil]
    omega
  · simp

/-- Every deque append ends with the appended element. -/
theorem dequeAppendC_getLast? (C : Nat) (buf : List α) (x : α) :
    (dequeAppendC C buf x).getLast? = some x := by
  unfold dequeAppendC
  split <;> exact List.getLast?_concat _

/-- Appending one element on the right of a history. -/
theorem appendAll_concat (C : Nat) (xs : List α) (x : α) :
    appendAll C (xs ++ [x]) = dequeAppendC C (appendAll C xs) x := by
  unfold appendAll
  rw [List.foldl_append]
  rfl

/-- The deque built from a history of appends retains exactly the most
recent `C` entries, in insertion order. -/
theorem appendAll_eq_drop (C : Nat) (hC : 0 < C) (xs : List α) :
    appendAll C xs = xs.drop (xs.length - C) := by
  induction xs using List.reverseRecOn with
  | nil => simp [appendAll]
  | append_singleton ys y ih =>
    rw [appendAll_concat, ih]
    by_cases h : ys.length < C
    · have h0 : ys.length - C = 0 := by omega
      have h1 : (ys ++ [y]).length - C = 0 := by
        simp only [List.length_append, List.length_cons, List.length_nil]
        omega
      rw [h0, h1, List.drop_zero, List.drop_zero]
      unfold dequeAppendC
      rw [if_neg (by omega)]
    · have hlen : (ys.drop (ys.length - C)).length = C := by
        rw [List.length_drop]; omega
      unfold dequeAppendC
      rw [if_pos (by omega), List.tail_drop]
      have h2 : (ys ++ [y]).length - C = (ys.length - C) + 1 := by
        simp only [List.length_append, List.length_cons, List.length_nil]
        omega
      rw [h2, List.drop_append_of_le_length (by omega)]

/-- Length of the deque built from a history of appends. -/
theorem appendAll_length (C : Nat) (hC : 0 < C) (xs : List α) :
    (appendAll C xs).length = min xs.length C := by
  rw [appendAll_eq_drop C hC, List.length_drop]
  omega

/-- C3: for every sequence of appends to a ring buffer of capacity
`MAX_BUFFER_SIZE = 10000`, the resulting length is `min N C`; the retained
entries are exactly the most recent `C` in insertion order (oldest first);
and an append at capacity evicts the oldest entry first, leaving the length
unchanged. -/
theorem ring_buffer_capacity_fifo (xs : List ℚ) (x : ℚ) :
    (appendAll MAX_BUFFER_SIZE xs).length = min xs.length MAX_BUFFER_SIZE ∧
    appendAll MAX_BUFFER_SIZE xs = xs.drop (xs.length - MAX_BUFFER_SIZE) ∧
    appendAll MAX_BUFFER_SIZE (xs ++ [x]) =
      (if xs.length < MAX_BUFFER_SIZE then appendAll MAX_BUFFER_SIZE xs ++ [x]
       else (appendAll MAX_BUFFER_SIZE xs).tail ++ [x]) := by
  have hC : 0 < MAX_BUFFER_SIZE := by norm_num [MAX_BUFFER_SIZE]
  refine ⟨appendAll_length _ hC xs, appendAll_eq_drop _ hC xs, ?_⟩
  rw [appendAll_concat]
  unfold dequeAppendC
  have hlen := appendAll_length _ hC xs
  by_cases h : xs.length < MAX_BUFFER_SIZE
  · rw [if_neg (by omega), if_pos h]
  · rw [if_pos (by omega), if_neg (by omega)]

/-! ### Parallel buffer invariant -/

/-- One tick preserves the equal-length invariant of the timestamp buffer
and every channel buffer. -/
theorem tickStep_preserves_lengths (st : Buffers) (e : TickInput)
    (h : ∀ c, (st.sensor_data c).length = st.time_data.length) :
    ∀ c, ((tickStep st e).sensor_data c).length = (tickStep st e).time_data.length := by
  intro c
  unfold tickStep
  split
  · have hC : 0 < MAX_BUFFER_SIZE := by norm_num [MAX_BUFFER_SIZE]
    unfold generate_new_data dequeAppend
    simp only
    rw [dequeAppendC_length _ hC, dequeAppendC_length _ hC, h c]
  · exact h c

/-- The equal-length invariant propagates through every tick sequence. -/
theorem foldl_tickStep_lengths (evs : List TickInput) :
    ∀ st : Buffers, (∀ c, (st.sensor_data c).length = st.time_data.length) →
      ∀ c, ((evs.foldl tickStep st).sensor_data c).length =
        (evs.foldl tickStep st).time_data.length := by
  induction evs with
  | nil => intro st h c; simpa using h c
  | cons e evs ih =>
    intro st h c
    rw [List.foldl_cons]
    exact ih (tickStep st e) (tickStep_preserves_lengths st e h) c

/-- C4: after any sequence of ticks from process start, the shared timestamp
buffer and every channel buffer have equal length, since a data-generation
step appends exactly one timestamp and one value per channel. -/
theorem parallel_buffer_lengths_equal (evs : List TickInput) (c : Fin 4) :
    ((runTicks evs).sensor_data c).length = (runTicks evs).time_data.length :=
  foldl_tickStep_lengths evs initialBuffers (fun _ => rfl) c

/-! ### Tick mutation (C5) -/

/-- C5 (amended): a tick mutates the ring buffers if and only if capture is
running, in the dashboard graph-update functions of both variants; when it
does, it appends exactly one timestamp and exactly one generated value per
channel (evicting the oldest entry only at capacity).  The detail-page
update of the multi-page variant never mutates the buffers: it returns the
global state unchanged on every input. -/
theorem tick_mutation_amended (st : Buffers) (now : Time) (u : Fin 4 → ℚ)
    (running : Bool) (s1 : Settings1) (rl1 : Fin 4 → Option Relayout)
    (s2 : Settings2) (rl2 : Fin 4 → Option Relayout)
    (trig : DetailTrigger) (ds : Settings2) (path : Option String) (c : Fin 4) :
    (update_graphs st now u running s1 rl1).1 =
      (if running then generate_new_data st now u else st) ∧
    (update_dashboard_graphs st now u running s2 rl2).1 =
      (if running then generate_new_data st now u else st) ∧
    (update_detail_graph_live st trig ds path running).1 = st ∧
    (generate_new_data st now u).time_data.length =
      (if MAX_BUFFER_SIZE ≤ st.time_data.length then st.time_data.length
       else st.time_data.length + 1) ∧
    ((generate_new_data st now u).sensor_data c).length =
      (if MAX_BUFFER_SIZE ≤ (st.sensor_data c).length then (st.sensor_data c).length
       else (st.sensor_data c).length + 1) ∧
    (generate_new_data st now u).time_data.getLast? = some now ∧
    ((generate_new_data st now u).sensor_data c).getLast? =
      some (nextValue (lastOrDefault (st.sensor_data c)) (u c)) := by
  have hC : 0 < MAX_BUFFER_SIZE := by norm_num [MAX_BUFFER_SIZE]
  exact ⟨rfl, rfl, rfl, dequeAppendC_length _ hC _ _, dequeAppendC_length _ hC _ _,
    dequeAppendC_getLast? _ _ _, dequeAppendC_getLast? _ _ _⟩

/-- C5 counterexample: a tick that fires while running on a detail page of
the multi-page variant takes the live-delta path yet appends nothing — with
one buffered sample, both the timestamp buffer and the channel buffer still
hold exactly one entry after the callback, contradicting the claim that
every tick while running appends new data on detail pages as well. -/
theorem detail_tick_no_append_counterexample :
    (update_detail_graph_live ⟨[7], fun _ => [50]⟩ DetailTrigger.interval
        ⟨none, none, none, none⟩ (some "/sensor-1") true).1.time_data.length = 1 ∧
    ((update_detail_graph_live ⟨[7], fun _ => [50]⟩ DetailTrigger.interval
        ⟨none, none, none, none⟩ (some "/sensor-1") true).1.sensor_data 0).length = 1 ∧
    (update_detail_graph_live ⟨[7], fun _ => [50]⟩ DetailTrigger.interval
        ⟨none, none, none, none⟩ (some "/sensor-1") true).2 =
      some (DetailOut.delta
        { x := [[7]], y := [[50]], trace_indices := [0], max_points := 500 }) := by
  decide

/-! ### Signal generator (C9) -/

/-- C9: the generator computes `lastValue + u - 0.1 * (lastValue - 50)` and
clamps to `[0, 120]`; an empty channel buffer contributes the default last
value `50.0`; and for every last value in `[0, 120]` and draw in
`[-2.5, 2.5]` the value appended to the channel buffer lies in `[0, 120]`. -/
theorem generator_formula_bounds (last_val u : ℚ) (st : Buffers) (now : Time)
    (draws : Fin 4 → ℚ) (c : Fin 4) :
    nextValue last_val u =
      max 0 (min 120 (last_val + u - (last_val - 50) * (1 / 10))) ∧
    lastOrDefault [] = 50 ∧
    (0 ≤ last_val → last_val ≤ 120 → -(5 / 2) ≤ u → u ≤ 5 / 2 →
      0 ≤ nextValue last_val u ∧ nextValue last_val u ≤ 120) ∧
    (0 ≤ lastOrDefault (st.sensor_data c) → lastOrDefault (st.sensor_data c) ≤ 120 →
      -(5 / 2) ≤ draws c → draws c ≤ 5 / 2 →
      ∃ v, ((generate_new_data st now draws).sensor_data c).getLast? = some v ∧
        0 ≤ v ∧ v ≤ 120) := by
  have hb : ∀ a b : ℚ, 0 ≤ nextValue a b ∧ nextValue a b ≤ 120 := by
    intro a b
    refine ⟨le_max_left 0 _, ?_⟩
    exact max_le (by norm_num) (min_le_left _ _)
  refine ⟨rfl, rfl, fun _ _ _ _ => hb _ _, fun _ _ _ _ => ?_⟩
  exact ⟨_, dequeAppendC_getLast? _ _ _, hb _ _⟩

/-- Witness for C9 at `lastValue = 50`, draw `0`, and an empty channel
buffer. -/
theorem generator_formula_bounds_witness :
    ((0:ℚ) ≤ nextValue 50 0 ∧ nextValue 50 0 ≤ 120) ∧
    (∃ v, ((generate_new_data initialBuffers 0 (fun _ => 0)).sensor_data 0).getLast? =
        some v ∧ 0 ≤ v ∧ v ≤ 120) :=
  ⟨(generator_formula_bounds 50 0 initialBuffers 0 (fun _ => 0) 0).2.2.1
      (by norm_num) (by norm_num) (by norm_num) (by norm_num),
   (generator_formula_bounds 50 0 initialBuffers 0 (fun _ => 0) 0).2.2.2
      (show (0:ℚ) ≤ 50 by norm_num) (show (50:ℚ) ≤ 120 by norm_num)
      (show -(5 / 2 : ℚ) ≤ 0 by norm_num) (show (0:ℚ) ≤ 5 / 2 by norm_num)⟩

/-! ### Window extractor (C7) -/

/-- C7: the visible window is exactly the index range
`[max(0, totalLength - displayPoints), totalLength)`: the slice is the
suffix of the buffer starting there, `displayPoints ≤ 0` yields an empty
window, `displayPoints` beyond the buffered length yields the full buffer,
a display count within the buffer yields exactly that many points, and the
spec examples `window(30, 50) = (0, 30)` and `window(500, 50) = (450, 500)`
hold. -/
theorem window_extractor_correct (t p : Int) (xs : List Time)
    (ht : 0 ≤ t) (hxs : (xs.length : Int) = t) :
    window t p = (max 0 (t - p), t) ∧
    window 30 50 = (0, 30) ∧
    window 500 50 = (450, 500) ∧
    window_slice xs xs.length p = xs.drop ((xs.length : Int) - p).toNat ∧
    (p ≤ 0 → window_slice xs xs.length p = []) ∧
    (t ≤ p → window_slice xs xs.length p = xs) ∧
    (0 ≤ p → p ≤ t → ((window_slice xs xs.length p).length : Int) = p) := by
  have hdrop : window_slice xs xs.length p = xs.drop ((xs.length : Int) - p).toNat := by
    unfold window_slice window islice
    rw [List.take_length]
    congr 1
    omega
  refine ⟨rfl, by decide, by decide, hdrop, ?_, ?_, ?_⟩
  · intro hp
    rw [hdrop]
    exact List.drop_eq_nil_of_le (by omega)
  · intro hp
    rw [hdrop]
    have h0 : ((xs.length : Int) - p).toNat = 0 := by omega
    rw [h0, List.drop_zero]
  · intro hp0 hpt
    rw [hdrop, List.length_drop]
    omega

/-- Witness for C7 on the two-element buffer `[5, 6]` with one display
point: the slice is the single most recent entry. -/
theorem window_extractor_correct_witness :
    (0:Int) ≤ 2 ∧ ((([5, 6] : List Time).length : Int) = 2) ∧
    window_slice ([5, 6] : List Time) ([5, 6] : List Time).length 1 = [6] := by
  have h := window_extractor_correct 2 1 ([5, 6] : List Time) (by norm_num) (by simp)
  refine ⟨by norm_num, by simp, ?_⟩
  rw [h.2.2.2.1]
  decide

/-! ### Overlay characterization lemmas -/

/-- While running, the variant-1 overlay is skipped. -/
theorem applyRelayout1_running (rd : Option Relayout) (fig : Figure) :
    applyRelayout1 true rd fig = some fig := by
  cases rd <;> simp [applyRelayout1]

/-- While running, the variant-2 overlay is skipped. -/
theorem applyRelayout2_running (rd : Option Relayout) (fig : Figure) :
    applyRelayout2 true rd fig = some fig := by
  cases rd <;> simp [applyRelayout2]

/-- Chart assembly never sets an axis-range override. -/
theorem assemble_figure_ranges (title : String) (x : List Time) (y : List ℚ)
    (mode : String) (ms : Option ℚ) (shape : String) :
    (assemble_figure title x y mode ms shape).xaxis_range = none ∧
    (assemble_figure title x y mode ms shape).yaxis_range = none := by
  simp only [assemble_figure, create_base_figure]
  split <;> exact ⟨rfl, rfl⟩

/-- The variant-1 assembled dashboard figure has no axis-range override. -/
theorem dashAssembledFig1_ranges (st : Buffers) (s : Settings1) (i : Fin 4) :
    (dashAssembledFig1 st s i).xaxis_range = none ∧
    (dashAssembledFig1 st s i).yaxis_range = none :=
  assemble_figure_ranges _ _ _ _ _ _

/-- The variant-2 assembled dashboard figure has no axis-range override. -/
theorem dashAssembledFig2_ranges (st : Buffers) (s : Settings2) (i : Fin 4) :
    (dashAssembledFig2 st s i).xaxis_range = none ∧
    (dashAssembledFig2 st s i).yaxis_range = none :=
  assemble_figure_ranges _ _ _ _ _ _

/-- `mapM` over the `Option` monad of a function that succeeds everywhere. -/
theorem mapM_eq_map_of_some (l : List α) (f : α → Option β) (g : α → β)
    (h : ∀ a ∈ l, f a = some (g a)) : l.mapM f = some (l.map g) := by
  induction l with
  | nil => rfl
  | cons a l ih =>
    rw [List.mapM_cons, h a (List.mem_cons_self a l),
      ih (fun b hb => h b (List.mem_cons_of_mem a hb)), List.map_cons]
    rfl

/-- C8: while capture is running, any captured zoom/pan payload is ignored
in the dashboard graph updates of both variants: every output figure has no
axis-range override, whatever the relayout payloads contain. -/
theorem overlay_dropped_when_running (st : Buffers) (now : Time) (u : Fin 4 → ℚ)
    (s1 : Settings1) (rl1 : Fin 4 → Option Relayout)
    (s2 : Settings2) (rl2 : Fin 4 → Option Relayout) :
    (∃ figs, (update_graphs st now u true s1 rl1).2 = some figs ∧
      ∀ fig ∈ figs, fig.xaxis_range = none ∧ fig.yaxis_range = none) ∧
    (∃ figs, (update_dashboard_graphs st now u true s2 rl2).2 = some figs ∧
      ∀ fig ∈ figs, fig.xaxis_range = none ∧ fig.yaxis_range = none) := by
  constructor
  · refine ⟨(List.finRange 4).map
        (fun i => dashAssembledFig1 (generate_new_data st now u) s1 i), ?_, ?_⟩
    · exact mapM_eq_map_of_some _ _ _ (fun i _ => applyRelayout1_running _ _)
    · intro fig hfig
      rw [List.mem_map] at hfig
      obtain ⟨i, _, rfl⟩ := hfig
      exact dashAssembledFig1_ranges _ _ _
  · refine ⟨(List.finRange 4).map
        (fun i => dashAssembledFig2 (generate_new_data st now u) s2 i), ?_, ?_⟩
    · exact mapM_eq_map_of_some _ _ _ (fun i _ => applyRelayout2_running _ _)
    · intro fig hfig
      rw [List.mem_map] at hfig
      obtain ⟨i, _, rfl⟩ := hfig
      exact dashAssembledFig2_ranges _ _ _

/-- While paused, the variant-1 overlay on a figure without prior overrides
sets each axis range independently: an axis range is installed exactly when
both bounds of that axis are in the payload, and the rest of the figure is
untouched. -/
theorem applyRelayout1_paused (rd : Option Relayout) (fig : Figure)
    (hx : fig.xaxis_range = none) (hy : fig.yaxis_range = none) :
    applyRelayout1 false rd fig =
      some { fig with
        xaxis_range := overlayPair rd "xaxis.range[0]" "xaxis.range[1]",
        yaxis_range := overlayPair rd "yaxis.range[0]" "yaxis.range[1]" } := by
  obtain ⟨ft, ftr, fx, fy⟩ := fig
  change fx = none at hx
  change fy = none at hy
  subst hx
  subst hy
  cases rd with
  | none => rfl
  | some r =>
    by_cases hr : r.isEmpty
    · have hre : r = [] := List.isEmpty_iff.mp hr
      subst hre
      simp [applyRelayout1, overlayPair, List.lookup]
    · cases hx0 : r.lookup "xaxis.range[0]" <;>
        cases hx1 : r.lookup "xaxis.range[1]" <;>
        cases hy0 : r.lookup "yaxis.range[0]" <;>
        cases hy1 : r.lookup "yaxis.range[1]" <;>
        simp [applyRelayout1, overlayPair, hasKey, hr, hx0, hx1, hy0, hy1]

/-- While paused, the variant-2 overlay on a payload that cannot raise the
`KeyError` installs both axis ranges together when all four keys are
present and otherwise returns the figure unchanged. -/
theorem applyRelayout2_paused_safe (rd : Option Relayout) (fig : Figure)
    (hsafe : relayoutSafe rd = true) :
    applyRelayout2 false rd fig = some (overlayResult2 rd fig) := by
  cases rd with
  | none => rfl
  | some r =>
    by_cases hr : r.isEmpty
    · have hre : r = [] := List.isEmpty_iff.mp hr
      subst hre
      simp [applyRelayout2, overlayResult2, List.lookup]
    · simp only [relayoutSafe] at hsafe
      cases hx0 : r.lookup "xaxis.range[0]" <;>
        cases hx1 : r.lookup "xaxis.range[1]" <;>
        cases hy0 : r.lookup "yaxis.range[0]" <;>
        cases hy1 : r.lookup "yaxis.range[1]" <;>
        simp only [hasKey, hx0, hx1, hy0, hy1, Option.isSome_none, Option.isSome_some,
          Bool.and_false, Bool.and_true, Bool.false_and, Bool.true_and, Bool.not_false,
          Bool.not_true, Bool.false_or, Bool.true_or, Bool.or_false] at hsafe ⊢ <;>
        first
        | exact absurd hsafe (by decide)
        | simp [applyRelayout2, overlayResult2, hasKey, hr, hx0, hx1, hy0, hy1]

/-! ### Axis overlay independence (C1) -/

/-- C1 (amended): while paused, variant 1 `update_graphs` validates each
axis independently — the x-axis override of a figure is installed exactly when
the payload holds both x bounds and its y-axis override exactly when it
holds both y bounds, the rest of the figure being exactly what Chart
Assembly computed; variant 2 `update_dashboard_graphs` instead validates
the two axes jointly: on any payload that does not raise, both overrides
are installed together exactly when all four keys are present, and a
payload carrying only one axis (or neither) leaves the figure exactly as
assembled. -/
theorem overlay_independence_amended (st : Buffers) (now : Time) (u : Fin 4 → ℚ)
    (s1 : Settings1) (rl1 : Fin 4 → Option Relayout)
    (s2 : Settings2) (rl2 : Fin 4 → Option Relayout) :
    (update_graphs st now u false s1 rl1).2 =
      some ((List.finRange 4).map (fun i =>
        { dashAssembledFig1 st s1 i with
            xaxis_range := overlayPair (rl1 i) "xaxis.range[0]" "xaxis.range[1]",
            yaxis_range := overlayPair (rl1 i) "yaxis.range[0]" "yaxis.range[1]" })) ∧
    ((∀ i, relayoutSafe (rl2 i) = true) →
      (update_dashboard_graphs st now u false s2 rl2).2 =
        some ((List.finRange 4).map (fun i =>
          overlayResult2 (rl2 i) (dashAssembledFig2 st s2 i)))) := by
  constructor
  · exact mapM_eq_map_of_some _ _ _ (fun i _ =>
      applyRelayout1_paused (rl1 i) _ (dashAssembledFig1_ranges st s1 i).1
        (dashAssembledFig1_ranges st s1 i).2)
  · intro hsafe
    exact mapM_eq_map_of_some _ _ _ (fun i _ =>
      applyRelayout2_paused_safe (rl2 i) _ (hsafe i))

/-- Witness for C1 at empty payloads (trivially safe for variant 2). -/
theorem overlay_independence_amended_witness :
    (update_dashboard_graphs initialBuffers 0 (fun _ => 0) false
        ⟨none, none, none, none⟩ (fun _ => none)).2 =
      some ((List.finRange 4).map (fun i =>
        overlayResult2 none (dashAssembledFig2 initialBuffers
          ⟨none, none, none, none⟩ i))) :=
  (overlay_independence_amended initialBuffers 0 (fun _ => 0)
      ⟨none, none, none, none⟩ (fun _ => none)
      ⟨none, none, none, none⟩ (fun _ => none)).2 (by decide)

/-- C1 counterexample: while paused, a variant-2 payload carrying both
x-axis bounds and no y-axis key leaves every output figure without any
x-axis override, although the claim requires the x-axis range to be applied
whenever both x bounds are present. -/
theorem overlay_x_only_ignored_variant2 :
    hasKey [("xaxis.range[0]", (1:ℚ)), ("xaxis.range[1]", 2)] "xaxis.range[0]" = true ∧
    hasKey [("xaxis.range[0]", (1:ℚ)), ("xaxis.range[1]", 2)] "xaxis.range[1]" = true ∧
    Option.map (fun figs => figs.map Figure.xaxis_range)
      (update_dashboard_graphs initialBuffers 0 (fun _ => 0) false
        ⟨none, none, none, none⟩
        (fun j => if j = 0 then
            some [("xaxis.range[0]", (1:ℚ)), ("xaxis.range[1]", 2)]
          else none)).2 =
      some [none, none, none, none] := by
  decide

/-! ### Partial payloads never fatal (C2) -/

/-- The variant-1 overlay never fails, on every payload. -/
theorem applyRelayout1_isSome (running : Bool) (rd : Option Relayout) (fig : Figure) :
    (applyRelayout1 running rd fig).isSome = true := by
  cases running with
  | true => rw [applyRelayout1_running]; rfl
  | false =>
    cases rd with
    | none => rfl
    | some r =>
      by_cases hr : r.isEmpty
      · simp [applyRelayout1, hr]
      · cases hx0 : r.lookup "xaxis.range[0]" <;>
          cases hx1 : r.lookup "xaxis.range[1]" <;>
          cases hy0 : r.lookup "yaxis.range[0]" <;>
          cases hy1 : r.lookup "yaxis.range[1]" <;>
          simp [applyRelayout1, hasKey, hr, hx0, hx1, hy0, hy1]

/-- The variant-2 overlay does not fail on a safe payload. -/
theorem applyRelayout2_isSome_of_safe (running : Bool) (rd : Option Relayout)
    (fig : Figure) (hsafe : relayoutSafe rd = true) :
    (applyRelayout2 running rd fig).isSome = true := by
  cases running with
  | true => rw [applyRelayout2_running]; rfl
  | false => rw [applyRelayout2_paused_safe rd fig hsafe]; rfl

/-- `mapM` over the `Option` monad of a function that never fails. -/
theorem mapM_isSome (l : List α) (f : α → Option β)
    (h : ∀ a ∈ l, (f a).isSome = true) : (l.mapM f).isSome = true := by
  induction l with
  | nil => rfl
  | cons a l ih =>
    rw [List.mapM_cons]
    obtain ⟨b, hb⟩ := Option.isSome_iff_exists.mp (h a (List.mem_cons_self a l))
    obtain ⟨bs, hbs⟩ :=
      Option.isSome_iff_exists.mp (ih (fun x hx => h x (List.mem_cons_of_mem a hx)))
    rw [hb, hbs]
    rfl

/-- C2 (amended): variant 1 `update_graphs` completes on every captured
payload, however partial — each missing field is treated as no override for
its axis.  Variant 2 `update_dashboard_graphs` completes on every payload
except one that contains both `range[0]` keys while lacking a matching
`range[1]` key, where the overlay raises an uncaught `KeyError`. -/
theorem payload_nonfatal_amended (st : Buffers) (now : Time) (u : Fin 4 → ℚ)
    (running : Bool) (s1 : Settings1) (rl1 : Fin 4 → Option Relayout)
    (s2 : Settings2) (rl2 : Fin 4 → Option Relayout) :
    ((update_graphs st now u running s1 rl1).2).isSome = true ∧
    ((∀ i, relayoutSafe (rl2 i) = true) →
      ((update_dashboard_graphs st now u running s2 rl2).2).isSome = true) := by
  constructor
  · exact mapM_isSome _ _ (fun i _ => applyRelayout1_isSome _ _ _)
  · intro hsafe
    exact mapM_isSome _ _ (fun i _ => applyRelayout2_isSome_of_safe _ _ _ (hsafe i))

/-- Witness for C2 on a partial payload holding only a single lower x
bound (safe for both variants). -/
theorem payload_nonfatal_amended_witness :
    ((update_graphs initialBuffers 0 (fun _ => 0) false ⟨none, none, none, none⟩
        (fun _ => some [("xaxis.range[0]", (1:ℚ))])).2).isSome = true ∧
    ((update_dashboard_graphs initialBuffers 0 (fun _ => 0) false
        ⟨none, none, none, none⟩
        (fun _ => some [("xaxis.range[0]", (1:ℚ))])).2).isSome = true := by
  have h := payload_nonfatal_amended initialBuffers 0 (fun _ => 0) false
    ⟨none, none, none, none⟩ (fun _ => some [("xaxis.range[0]", (1:ℚ))])
    ⟨none, none, none, none⟩ (fun _ => some [("xaxis.range[0]", (1:ℚ))])
  exact ⟨h.1, h.2 (by decide)⟩

/-- C2 counterexample: while paused, a variant-2 payload containing
`xaxis.range[0]` and `yaxis.range[0]` but neither `range[1]` key makes
`update_dashboard_graphs` raise (`KeyError`), so the overlay application is
fatal there, contrary to the claim. -/
theorem payload_keyerror_variant2 :
    (update_dashboard_graphs initialBuffers 0 (fun _ => 0) false
      ⟨none, none, none, none⟩
      (fun j => if j = 0 then
          some [("xaxis.range[0]", (1:ℚ)), ("yaxis.range[0]", 2)]
        else none)).2 = none := by
  decide

/-! ### Detail page delta vs redraw (C6) -/

/-- C6: on a detail page whose pathname parses to an existing sensor, a
tick while running with at least one buffered sample emits exactly one
delta — the newest (timestamp, value) pair appended to trace 0 with at most
`settings.points` (default 500) retained points — and no figure; every
other trigger (first render, settings change, tick while paused, or empty
buffer) produces a full redraw of the current window and no delta. -/
theorem detail_delta_redraw_contract (st : Buffers) (trig : DetailTrigger)
    (ds : Settings2) (path : Option String) (running : Bool) (idx : Int) (c : Fin 4)
    (hparse : parseSensorIndex path = some idx)
    (hchan : channelOfIndex idx = some c) :
    ((trig = DetailTrigger.interval ∧ running = true ∧ st.time_data ≠ [] ∧
        st.sensor_data c ≠ []) →
      ∃ t v, st.time_data.getLast? = some t ∧ (st.sensor_data c).getLast? = some v ∧
        (update_detail_graph_live st trig ds path running).2 =
          some (DetailOut.delta
            { x := [[t]], y := [[v]], trace_indices := [0],
              max_points := ds.points.getD DEFAULT_DISPLAY_POINTS_DETAIL })) ∧
    (¬(trig = DetailTrigger.interval ∧ running = true ∧ st.time_data ≠ []) →
      (update_detail_graph_live st trig ds path running).2 =
        some (DetailOut.redraw (detailRedrawFig st ds c))) := by
  constructor
  · rintro ⟨h1, h2, h3, h4⟩
    obtain ⟨t, ht⟩ := Option.isSome_iff_exists.mp (Option.isSome_iff_ne_none.mpr
      (fun hnone => h3 (List.getLast?_eq_none_iff.mp hnone)))
    obtain ⟨v, hv⟩ := Option.isSome_iff_exists.mp (Option.isSome_iff_ne_none.mpr
      (fun hnone => h4 (List.getLast?_eq_none_iff.mp hnone)))
    refine ⟨t, v, ht, hv, ?_⟩
    show (match parseSensorIndex path with
      | none => some DetailOut.noUpdatePair
      | some idx => _) = _
    rw [hparse]
    simp only [hchan]
    rw [if_pos ⟨h1, h2, h3⟩, ht, hv]
  · intro hneg
    show (match parseSensorIndex path with
      | none => some DetailOut.noUpdatePair
      | some idx => _) = _
    rw [hparse]
    simp only [hchan]
    rw [if_neg hneg]

/-- Witness for C6: one buffered sample, pathname `/sensor-1`, tick while
running — the emitted delta is the newest point with the default 500-point
cap. -/
theorem detail_delta_redraw_contract_witness :
    (update_detail_graph_live ⟨[9], fun _ => [42]⟩ DetailTrigger.interval
        ⟨none, none, none, none⟩ (some "/sensor-1") true).2 =
      some (DetailOut.delta
        { x := [[9]], y := [[42]], trace_indices := [0], max_points := 500 }) := by
  have h := detail_delta_redraw_contract ⟨[9], fun _ => [42]⟩ DetailTrigger.interval
    ⟨none, none, none, none⟩ (some "/sensor-1") true 1 0 (by decide) (by decide)
  obtain ⟨t, v, ht, hv, he⟩ := h.1 ⟨rfl, rfl, by decide, by decide⟩
  have ht9 : t = 9 := by simpa using ht.symm
  have hv42 : v = 42 := by simpa using hv.symm
  rw [ht9, hv42] at he
  exact he

/-! ### Export assembler (C10) -/

/-- Reading every index of a list back with `getD` reproduces the list. -/
theorem map_range_getD (xs : List α) (d : α) :
    (List.range xs.length).map (fun j => xs.getD j d) = xs := by
  induction xs with
  | nil => rfl
  | cons x xs ih =>
    rw [List.length_cons, List.range_succ_eq_map, List.map_cons, List.map_map]
    simp only [Function.comp_def, List.getD_cons_zero, List.getD_cons_succ]
    rw [ih]

/-- C10: on buffers whose channels match the timestamp buffer in length
(the always-maintained invariant), export produces a table with header
`timestamp, s1, s2, s3, s4` and exactly one row per buffered sample, in
insertion order, whose columns project back to exactly the buffered
contents; empty buffers yield the header and zero data rows. -/
theorem export_table_contract (st : Buffers)
    (h : ∀ c : Fin 4, (st.sensor_data c).length = st.time_data.length) :
    (∃ tbl, export_data_as_csv st = some tbl ∧
      tbl.header = ["timestamp", "s1", "s2", "s3", "s4"] ∧
      tbl.rows.length = st.time_data.length ∧
      tbl.rows.map (fun r => r.1) = st.time_data ∧
      tbl.rows.map (fun r => r.2.1) = st.sensor_data 0 ∧
      tbl.rows.map (fun r => r.2.2.1) = st.sensor_data 1 ∧
      tbl.rows.map (fun r => r.2.2.2.1) = st.sensor_data 2 ∧
      tbl.rows.map (fun r => r.2.2.2.2) = st.sensor_data 3 ∧
      (st.time_data = [] → tbl.rows = [])) ∧
    export_data_as_csv initialBuffers =
      some { header := ["timestamp", "s1", "s2", "s3", "s4"], rows := [] } := by
  refine ⟨?_, by decide⟩
  refine ⟨{ header := ["timestamp", "s1", "s2", "s3", "s4"],
            rows := (List.range st.time_data.length).map (fun j =>
              (st.time_data.getD j 0,
               (st.sensor_data 0).getD j 0, (st.sensor_data 1).getD j 0,
               (st.sensor_data 2).getD j 0, (st.sensor_data 3).getD j 0)) },
          ?_, rfl, ?_, ?_, ?_, ?_, ?_, ?_, ?_⟩
  · unfold export_data_as_csv
    rw [if_pos h]
  · simp
  · rw [List.map_map]
    simp only [Function.comp_def]
    exact map_range_getD st.time_data 0
  · rw [List.map_map]
    simp only [Function.comp_def]
    rw [← h 0]
    exact map_range_getD (st.sensor_data 0) 0
  · rw [List.map_map]
    simp only [Function.comp_def]
    rw [← h 1]
    exact map_range_getD (st.sensor_data 1) 0
  · rw [List.map_map]
    simp only [Function.comp_def]
    rw [← h 2]
    exact map_range_getD (st.sensor_data 2) 0
  · rw [List.map_map]
    simp only [Function.comp_def]
    rw [← h 3]
    exact map_range_getD (st.sensor_data 3) 0
  · intro he
    simp [he]

/-- Witness for C10 on a two-sample buffer state. -/
theorem export_table_contract_witness :
    (∀ c : Fin 4, (((⟨[1, 2], fun _ => [10, 20]⟩ : Buffers)).sensor_data c).length =
      ((⟨[1, 2], fun _ => [10, 20]⟩ : Buffers)).time_data.length) ∧
    (∃ tbl, export_data_as_csv ⟨[1, 2], fun _ => [10, 20]⟩ = some tbl ∧
      tbl.header = ["timestamp", "s1", "s2", "s3", "s4"] ∧
      tbl.rows.length = 2 ∧
      tbl.rows.map (fun r => r.1) = [1, 2]) := by
  have h := export_table_contract ⟨[1, 2], fun _ => [10, 20]⟩ (by decide)
  obtain ⟨tbl, he, hh, hl, hc, _⟩ := h.1
  exact ⟨by decide, tbl, he, hh, hl, hc⟩
